import Mathlib

/-!
Shallow embedding of the Worksection → pCloud bridge (server.js, pcloud.js,
test-ws.js).  Remote I/O is modelled by explicit state passing: the state
carries scripted provider responses (consumed in order; `none` is a transport
failure) and a log of every outbound request, so theorems can speak about
which calls were issued, with which parameters, and in which order.
-/

set_option maxRecDepth 4000

/-- JS truthiness for an optional string: `undefined`/`null` and `""` are
falsy, every other string is truthy. -/
def strTruthy : Option String → Bool
  | some s => s ≠ ""
  | none => false

/-- The JS idiom `x || null` on an optional string: keeps truthy values,
collapses falsy ones to `none`. -/
def jsOr (o : Option String) : Option String :=
  if strTruthy o then o else none

/-- JS truthiness for an optional number: `undefined`/`null` and `0` are
falsy. -/
def natTruthy : Option Nat → Bool
  | some n => n ≠ 0
  | none => false

/-! ### MD5 (crypto.createHash, hex digest)

Executable MD5 over byte lists, used by the hashed-query construction in
`server.js`/`test-ws.js`. -/

/-- Truncate to 32 bits. -/
def u32 (n : Nat) : Nat := n % 4294967296

/-- Bitwise NOT on a 32-bit value. -/
def unot (x : Nat) : Nat := x ^^^ 4294967295

/-- Left rotation on 32 bits. -/
def rotl (x s : Nat) : Nat := u32 (x <<< s) ||| (x >>> (32 - s))

/-- Per-round left-rotation amounts (RFC 1321). -/
def md5S : List Nat :=
  [7, 12, 17, 22, 7, 12, 17, 22, 7, 12, 17, 22, 7, 12, 17, 22,
   5, 9, 14, 20, 5, 9, 14, 20, 5, 9, 14, 20, 5, 9, 14, 20,
   4, 11, 16, 23, 4, 11, 16, 23, 4, 11, 16, 23, 4, 11, 16, 23,
   6, 10, 15, 21, 6, 10, 15, 21, 6, 10, 15, 21, 6, 10, 15, 21]

/-- Sine-derived additive constants (RFC 1321). -/
def md5K : List Nat :=
  [0xd76aa478, 0xe8c7b756, 0x242070db, 0xc1bdceee,
   0xf57c0faf, 0x4787c62a, 0xa8304613, 0xfd469501,
   0x698098d8, 0x8b44f7af, 0xffff5bb1, 0x895cd7be,
   0x6b901122, 0xfd987193, 0xa679438e, 0x49b40821,
   0xf61e2562, 0xc040b340, 0x265e5a51, 0xe9b6c7aa,
   0xd62f105d, 0x02441453, 0xd8a1e681, 0xe7d3fbc8,
   0x21e1cde6, 0xc33707d6, 0xf4d50d87, 0x455a14ed,
   0xa9e3e905, 0xfcefa3f8, 0x676f02d9, 0x8d2a4c8a,
   0xfffa3942, 0x8771f681, 0x6d9d6122, 0xfde5380c,
   0xa4beea44, 0x4bdecfa9, 0xf6bb4b60, 0xbebfbc70,
   0x289b7ec6, 0xeaa127fa, 0xd4ef3085, 0x04881d05,
   0xd9d4d039, 0xe6db99e5, 0x1fa27cf8, 0xc4ac5665,
   0xf4292244, 0x432aff97, 0xab9423a7, 0xfc93a039,
   0x655b59c3, 0x8f0ccc92, 0xffeff47d, 0x85845dd1,
   0x6fa87e4f, 0xfe2ce6e0, 0xa3014314, 0x4e0811a1,
   0xf7537e82, 0xbd3af235, 0x2ad7d2bb, 0xeb86d391]

/-- One of the 64 MD5 operations on the running `(a, b, c, d)` state,
using the 16 message words `M` of the current block. -/
def md5round (M : List Nat) (st : Nat × Nat × Nat × Nat) (i : Nat) :
    Nat × Nat × Nat × Nat :=
  let a := st.1
  let b := st.2.1
  let c := st.2.2.1
  let d := st.2.2.2
  let f :=
    if i < 16 then (b &&& c) ||| (unot b &&& d)
    else if i < 32 then (d &&& b) ||| (unot d &&& c)
    else if i < 48 then b ^^^ c ^^^ d
    else c ^^^ (b ||| unot d)
  let g :=
    if i < 16 then i
    else if i < 32 then (5 * i + 1) % 16
    else if i < 48 then (3 * i + 5) % 16
    else (7 * i) % 16
  let tmp := u32 (f + a + md5K.getD i 0 + M.getD g 0)
  (d, u32 (b + rotl tmp (md5S.getD i 0)), b, c)

/-- Process one 64-byte block (given as 16 little-endian words). -/
def md5block (st : Nat × Nat × Nat × Nat) (M : List Nat) :
    Nat × Nat × Nat × Nat :=
  let r := (List.range 64).foldl (md5round M) st
  (u32 (st.1 + r.1), u32 (st.2.1 + r.2.1),
   u32 (st.2.2.1 + r.2.2.1), u32 (st.2.2.2 + r.2.2.2))

/-- MD5 padding: `0x80`, zeros to 56 mod 64, then the bit length as eight
little-endian bytes. -/
def md5pad (msg : List Nat) : List Nat :=
  let len := msg.length
  let zeros := (119 - len % 64) % 64
  msg ++ 0x80 :: List.replicate zeros 0 ++
    (List.range 8).map (fun i => (8 * len) >>> (8 * i) % 256)

/-- Group bytes into 32-bit little-endian words. -/
def toWords : List Nat → List Nat
  | b0 :: b1 :: b2 :: b3 :: rest =>
      (b0 + (b1 <<< 8) + (b2 <<< 16) + (b3 <<< 24)) :: toWords rest
  | _ => []

/-- Split a padded message into `n` blocks of 64 bytes. -/
def md5blocks : Nat → List Nat → List (List Nat)
  | 0, _ => []
  | n + 1, l => l.take 64 :: md5blocks n (l.drop 64)

/-- The four 32-bit words of the MD5 digest of a byte list. -/
def md5words (msg : List Nat) : Nat × Nat × Nat × Nat :=
  let padded := md5pad msg
  ((md5blocks (padded.length / 64) padded).map toWords).foldl md5block
    (0x67452301, 0xefcdab89, 0x98badcfe, 0x10325476)

/-- Lowercase hex digit. -/
def hexDigit (n : Nat) : Char :=
  if n < 10 then Char.ofNat (48 + n) else Char.ofNat (87 + n)

/-- Two lowercase hex digits of a byte. -/
def byteHex (b : Nat) : String :=
  String.mk [hexDigit (b / 16 % 16), hexDigit (b % 16)]

/-- Hex rendering of a 32-bit word, least-significant byte first. -/
def wordHexLE (w : Nat) : String :=
  byteHex (w % 256) ++ byteHex (w >>> 8 % 256) ++
    byteHex (w >>> 16 % 256) ++ byteHex (w >>> 24 % 256)

/-- UTF-8 bytes of one character. -/
def charUTF8 (c : Char) : List Nat :=
  let n := c.toNat
  if n < 0x80 then [n]
  else if n < 0x800 then [0xc0 + n / 64, 0x80 + n % 64]
  else if n < 0x10000 then
    [0xe0 + n / 4096, 0x80 + n / 64 % 64, 0x80 + n % 64]
  else
    [0xf0 + n / 262144, 0x80 + n / 4096 % 64, 0x80 + n / 64 % 64,
     0x80 + n % 64]

/-- UTF-8 bytes of a string. -/
def strBytes (s : String) : List Nat := s.data.flatMap charUTF8

/-- Hex MD5 digest of a string, as crypto.createHash computes it. -/
def md5Hex (s : String) : String :=
  let w := md5words (strBytes s)
  wordHexLE w.1 ++ wordHexLE w.2.1 ++ wordHexLE w.2.2.1 ++ wordHexLE w.2.2.2

/-! ### URLSearchParams serialization and the hashed query

`new URLSearchParams(paramsObj).toString()` serializes in insertion order as
`key=value&…` with application/x-www-form-urlencoded escaping. -/

/-- Form-urlencode one character: unreserved characters pass through, a space
becomes `+`, everything else is percent-encoded byte by byte (uppercase hex,
matching WHATWG/Node behaviour). -/
def formEncodeChar (c : Char) : String :=
  if c.isAlphanum ∨ c = '*' ∨ c = '-' ∨ c = '.' ∨ c = '_' then
    String.singleton c
  else if c = ' ' then "+"
  else
    String.join ((charUTF8 c).map fun b =>
      "%" ++ String.mk [Char.toUpper (hexDigit (b / 16 % 16)),
                        Char.toUpper (hexDigit (b % 16))])

/-- Form-urlencode a string. -/
def formEncode (s : String) : String :=
  String.join (s.data.map formEncodeChar)

/-- Model of new URLSearchParams(paramsObj).toString(): order-sensitive
serialization of the parameter mapping. -/
def toQueryString (ps : List (String × String)) : String :=
  String.intercalate "&" (ps.map fun p => formEncode p.1 ++ "=" ++ formEncode p.2)

/-- The hashed-query construction used by `fetchWorksectionProject`
(server.js lines 96–108) and `test-ws.js`: serialize the parameters in
order, hash `queryString + apiKey` with MD5, and append the hash as an
additional `hash` parameter (the hash itself is not part of the hashed
string). Returns the final parameter list and the hash. -/
def buildHashedQuery (paramsObj : List (String × String)) (apiKey : String) :
    List (String × String) × String :=
  let queryString := toQueryString paramsObj
  let hash := md5Hex (queryString ++ apiKey)
  (paramsObj ++ [("hash", hash)], hash)

/-! ### Data model of the remote world -/

/-- Errors surfaced by the bridge, classified along the messages the source
throws (`throw new Error(...)` sites). -/
inductive Err where
  /-- Missing configuration: base URL, admin token, or pCloud credentials. -/
  | configError
  /-- axios transport failure (`pCloud network error`, `Worksection … error`). -/
  | networkError
  /-- Failed pCloud login (non-zero result or missing token). -/
  | loginFailed (result : Nat)
  /-- Terminal pCloud API error carrying the non-zero provider result. -/
  | apiError (result : Nat)
  /-- Worksection envelope whose status field is not "ok". -/
  | remoteError
  /-- Missing folder id in the listfolder metadata, thrown by shareFolder. -/
  | noFolderId
deriving DecidableEq

/-- The AuthError class of the spec: the provider rejected or required
authentication (result code 1000 or 2000, or a failed login). -/
def Err.isAuthError : Err → Bool
  | .apiError c => c = 1000 ∨ c = 2000
  | .loginFailed _ => true
  | _ => false

/-- Response body of `userinfo?getauth=1`. -/
structure LoginResp where
  result : Nat
  auth : Option String := none
deriving DecidableEq

/-- The metadata object of a pCloud folder response. -/
structure FolderMetadata where
  folderid : Option Nat := none
deriving DecidableEq

/-- Response body of a generic pCloud call. -/
structure CallResp where
  result : Nat
  metadata : Option FolderMetadata := none
deriving DecidableEq

/-- A user record inside the Worksection `data.users` array. -/
structure WsUser where
  email : Option String := none
deriving DecidableEq

/-- The `data` object of a Worksection `get_project` response. -/
structure WsData where
  name : Option String := none
  users : Option (List WsUser) := none
deriving DecidableEq

/-- A Worksection response envelope `{status, data}`. -/
structure WsResp where
  status : String
  data : Option WsData := none
deriving DecidableEq

/-- Query parameters of a pCloud GET call (beyond `auth`). -/
structure SParams where
  path : Option String := none
  folderid : Option Nat := none
  mail : Option String := none
  permissions : Option Nat := none
deriving DecidableEq

/-- One outbound HTTP request, as observable at the network boundary. -/
inductive Req where
  /-- A pCloud API call: method name, parameters, and the `auth` token sent. -/
  | storage (method : String) (params : SParams) (auth : String)
  /-- The pCloud login call `userinfo?getauth=1&username=&password=`. -/
  | login (username password : String)
  /-- The Worksection admin-API GET with its final (hash-appended) params. -/
  | tracker (params : List (String × String))
deriving DecidableEq

/-- Environment configuration: the module-level constants read from
`process.env` (after the `|| null` normalizations applied at load time), and
the current date in `YYYY-MM-DD` form (computed from `new Date()` in
`createProjectFolders`; modelled as an input). -/
structure Env where
  staticAuth : Option String := none
  username : Option String := none
  password : Option String := none
  wsBaseUrl : Option String := none
  wsToken : Option String := none
  today : String := ""
deriving DecidableEq

/-- Mutable process state plus the scripted behaviour of the remote world:
`cachedAuth` is the module-level token cache of pcloud.js; the three traces hold
the responses the remote ends will give, consumed in order (`none` models an
axios transport failure); `reqLog` records every request issued. -/
structure St where
  cachedAuth : Option String := none
  loginTrace : List (Option LoginResp) := []
  callTrace : List (Option CallResp) := []
  wsTrace : List (Option WsResp) := []
  reqLog : List Req := []
deriving DecidableEq

/-! ### pcloud.js -/

/-- Model of loginAndGetAuth (pcloud.js): returns the static token unchanged when
`PCLOUD_AUTH` is set (without touching the cache); otherwise requires a
username/password pair, issues `userinfo?getauth=1`, and on `result = 0`
with a truthy `auth` caches and returns the fresh token.  The single-threaded
model makes the `isLoggingIn` busy-wait guard vacuous. -/
def loginAndGetAuth (env : Env) (st : St) : Except Err String × St :=
  match env.staticAuth with
  | some t => (.ok t, st)
  | none =>
    match env.username, env.password with
    | some u, some pw =>
      let st1 := { st with reqLog := st.reqLog ++ [Req.login u pw] }
      match st1.loginTrace with
      | [] => (.error .networkError, st1)
      | none :: rest => (.error .networkError, { st1 with loginTrace := rest })
      | some r :: rest =>
        let st2 := { st1 with loginTrace := rest }
        if r.result = 0 ∧ strTruthy r.auth then
          match r.auth with
          | some a => (.ok a, { st2 with cachedAuth := some a })
          | none => (.error (.loginFailed r.result), st2)
        else (.error (.loginFailed r.result), st2)
    | _, _ => (.error .configError, st)

/-- Model of getAuthToken: cached token if present, else a login. -/
def getAuthToken (env : Env) (st : St) : Except Err String × St :=
  match st.cachedAuth with
  | some a => (.ok a, st)
  | none => loginAndGetAuth env st

/-- The `while (true)` body of `pcloudCall`: issue the request with the
current token, then interpret the result code — `0` succeeds; on the first
`1000`/`2000` clear the cache, re-login and retry once; anything else is an
API error. -/
def pcloudLoop (env : Env) (method : String) (params : SParams)
    (auth : String) (firstTry : Bool) (st : St) : Except Err CallResp × St :=
  let st1 := { st with reqLog := st.reqLog ++ [Req.storage method params auth] }
  match st1.callTrace with
  | [] => (.error .networkError, st1)
  | none :: rest => (.error .networkError, { st1 with callTrace := rest })
  | some r :: rest =>
    let st2 := { st1 with callTrace := rest }
    if r.result = 0 then (.ok r, st2)
    else if firstTry ∧ (r.result = 1000 ∨ r.result = 2000) then
      match loginAndGetAuth env { st2 with cachedAuth := none } with
      | (.error e, st3) => (.error e, st3)
      | (.ok a, st3) => pcloudLoop env method params a false st3
    else (.error (.apiError r.result), st2)
termination_by (if firstTry then 1 else 0)
decreasing_by simp_all

/-- Model of pcloudCall (pcloud.js): obtain a token, then run the
retry loop. -/
def pcloudCall (env : Env) (method : String) (params : SParams) (st : St) :
    Except Err CallResp × St :=
  match getAuthToken env st with
  | (.error e, st1) => (.error e, st1)
  | (.ok auth, st1) => pcloudLoop env method params auth true st1

/-- Model of ensureFolder: a createfolderifnotexists call on the path
(the surrounding try/catch only logs and rethrows). -/
def ensureFolder (env : Env) (path : String) (st : St) :
    Except Err CallResp × St :=
  pcloudCall env "createfolderifnotexists" { path := some path } st

/-- Model of shareFolder (pcloud.js, listfolder variant):
resolve the folder id with `listfolder`, fail if the metadata carries no
truthy `folderid`, then call `sharefolder` with that id, the email and the
permission mask. -/
def shareFolder (env : Env) (path mail : String) (permissions : Nat)
    (st : St) : Except Err CallResp × St :=
  match pcloudCall env "listfolder" { path := some path } st with
  | (.error e, st1) => (.error e, st1)
  | (.ok folderResult, st1) =>
    let fid : Option Nat :=
      match folderResult.metadata with
      | some m => if natTruthy m.folderid then m.folderid else none
      | none => none
    match fid with
    | none => (.error .noFolderId, st1)
    | some folderId =>
      pcloudCall env "sharefolder"
        { folderid := some folderId, mail := some mail,
          permissions := some permissions } st1


/-! ### server.js -/

/-- Model of fetchWorksectionProject (server.js lines 86-135): fail if
`WS_BASE_URL`/`WS_ADMIN_TOKEN` are falsy, build the signed query, issue the
GET, surface transport failures, and reject any envelope whose `status`
field is not `"ok"`. -/
def fetchWorksectionProject (env : Env) (projectId : Nat) (st : St) :
    Except Err WsResp × St :=
  if !strTruthy env.wsBaseUrl || !strTruthy env.wsToken then
    (.error .configError, st)
  else
    let apiKey := env.wsToken.getD ""
    let paramsObj := [("action", "get_project"),
                      ("id_project", toString projectId),
                      ("extra", "users")]
    let finalParams := (buildHashedQuery paramsObj apiKey).1
    let st1 := { st with reqLog := st.reqLog ++ [Req.tracker finalParams] }
    match st1.wsTrace with
    | [] => (.error .networkError, st1)
    | none :: rest => (.error .networkError, { st1 with wsTrace := rest })
    | some resp :: rest =>
      let st2 := { st1 with wsTrace := rest }
      if resp.status ≠ "ok" then (.error .remoteError, st2)
      else (.ok resp, st2)

/-- The five folder paths `createProjectFolders` derives for a project name
and date: root, project, preview base, dated preview, final render. -/
def folderPathsOf (projectName dateStr : String) : List String :=
  let rootPath := "/WorksectionProjects"
  let projectPath := rootPath ++ "/" ++ projectName
  let previewBasePath := projectPath ++ "/Preview"
  [rootPath, projectPath, previewBasePath,
   previewBasePath ++ "/" ++ dateStr, projectPath ++ "/Final_render"]

/-- The `for (const email of emails)` sharing loop in `createProjectFolders`
(server.js lines 183-192): each call shareFolder(projectPath, email, 7)
is wrapped in try/catch that only logs, so its outcome is discarded and the
loop always proceeds to the next recipient. -/
def shareEmailsLoop (env : Env) (projectPath : String) :
    List String → St → Except Err Unit × St
  | [], st => (.ok (), st)
  | email :: rest, st =>
    shareEmailsLoop env projectPath rest (shareFolder env projectPath email 7 st).2

/-- Model of createProjectFolders (server.js lines 140-209):
ensure the five folders sequentially (any failure rethrows and aborts the
rest), then best-effort share the project folder with each email. Returns
the path record. -/
def createProjectFolders (env : Env) (projectName : String)
    (emails : List String) (st : St) :
    Except Err (String × String × String × String × String) × St :=
  let rootPath := "/WorksectionProjects"
  let projectPath := rootPath ++ "/" ++ projectName
  let previewBasePath := projectPath ++ "/Preview"
  let previewPath := previewBasePath ++ "/" ++ env.today
  let finalRenderPath := projectPath ++ "/Final_render"
  match ensureFolder env rootPath st with
  | (.error e, st1) => (.error e, st1)
  | (.ok _, st1) =>
  match ensureFolder env projectPath st1 with
  | (.error e, st2) => (.error e, st2)
  | (.ok _, st2) =>
  match ensureFolder env previewBasePath st2 with
  | (.error e, st3) => (.error e, st3)
  | (.ok _, st3) =>
  match ensureFolder env previewPath st3 with
  | (.error e, st4) => (.error e, st4)
  | (.ok _, st4) =>
  match ensureFolder env finalRenderPath st4 with
  | (.error e, st5) => (.error e, st5)
  | (.ok _, st5) =>
    let st6 := (shareEmailsLoop env projectPath emails st5).2
    (.ok (rootPath, projectPath, previewBasePath, previewPath, finalRenderPath), st6)

/-- The `object` field of a webhook event. -/
structure EventObject where
  type : Option String := none
  id : Nat := 0
deriving DecidableEq

/-- The `new` field of a webhook event. -/
structure EventNew where
  title : Option String := none
deriving DecidableEq

/-- An inbound webhook event `{action, object: {type, id}, new: {title}}`. -/
structure Event where
  action : Option String := none
  object : Option EventObject := none
  new : Option EventNew := none
deriving DecidableEq

/-- Model of handleWebhookEvent (server.js lines 214-258): process only
events whose action is "post" with object type "project"; fetch the project from
Worksection, derive the name (fetched `name`, else webhook title, else
`project_<id>`) and the member emails (truthy `email` fields of the `users`
array), then create and share the folders. Fetch or folder errors rethrow. -/
def handleWebhookEvent (env : Env) (event : Event) (st : St) :
    Except Err Unit × St :=
  let action := jsOr event.action
  let objType := jsOr (event.object.bind fun o => o.type)
  if action = some "post" ∧ objType = some "project" then
    match event.object with
    | some obj =>
      let projectTitleFromWebhook := jsOr (event.new.bind fun n => n.title)
      match fetchWorksectionProject env obj.id st with
      | (.error e, st1) => (.error e, st1)
      | (.ok wsProjectResponse, st1) =>
        let projectData := wsProjectResponse.data.getD {}
        let projectName :=
          match jsOr projectData.name with
          | some n => n
          | none =>
            match projectTitleFromWebhook with
            | some t => t
            | none => "project_" ++ toString obj.id
        let users := projectData.users.getD []
        let emails := (users.map fun u => u.email).filterMap jsOr
        match createProjectFolders env projectName emails st1 with
        | (.error e, st2) => (.error e, st2)
        | (.ok _, st2) => (.ok (), st2)
    | none => (.ok (), st)  -- unreachable: objType = some "project" forces object
  else (.ok (), st)

/-! ### Observers over the request log -/

/-- Paths of the `createfolderifnotexists` requests in a log, in order. -/
def createfolderPaths (log : List Req) : List String :=
  log.filterMap fun r =>
    match r with
    | .storage m ps _ => if m = "createfolderifnotexists" then ps.path else none
    | _ => none

/-- Mails of the `sharefolder` requests in a log, in order. -/
def sharefolderMails (log : List Req) : List String :=
  log.filterMap fun r =>
    match r with
    | .storage m ps _ => if m = "sharefolder" then ps.mail else none
    | _ => none

/-- Number of `listfolder` requests in a log (one per sharing attempt). -/
def listfolderCount (log : List Req) : Nat :=
  (log.filterMap fun r =>
    match r with
    | .storage m ps _ => if m = "listfolder" then ps.path else none
    | _ => none).length

/-! ### Canned traces and request sequences used in the theorems -/

/-- A successful `createfolderifnotexists`-style response. -/
def okResp : CallResp := { result := 0 }

/-- A successful `listfolder` response exposing folder id 1. -/
def okListResp : CallResp := { result := 0, metadata := some { folderid := some 1 } }

/-- Scripted responses under which every sharing attempt succeeds: per
recipient, one good `listfolder` answer then one good `sharefolder` answer. -/
def goodShareTrace (emails : List String) : List (Option CallResp) :=
  emails.flatMap fun _ => [some okListResp, some okResp]

/-- The request sequence a fully successful sharing pass issues with token
`a`: per recipient, `listfolder` on the project path then `sharefolder` with
folder id 1, the mail, and permissions 7. -/
def shareReqs (projectPath a : String) (emails : List String) : List Req :=
  emails.flatMap fun email =>
    [Req.storage "listfolder" { path := some projectPath } a,
     Req.storage "sharefolder"
       { folderid := some 1, mail := some email, permissions := some 7 } a]

/-- The five `createfolderifnotexists` requests issued with token `a` for a
project name and date. -/
def createReqs (projectName dateStr a : String) : List Req :=
  (folderPathsOf projectName dateStr).map fun p =>
    Req.storage "createfolderifnotexists" { path := some p } a

/-! ### Step lemmas -/

/-- A `pcloudCall` whose first scripted response is a success consumes
exactly that response and logs exactly one request, issued with the cached
token. -/
theorem pcloudCall_ok (env : Env) (m : String) (ps : SParams) (a : String)
    (r : CallResp) (lt : List (Option LoginResp)) (ct : List (Option CallResp))
    (ws : List (Option WsResp)) (rl : List Req) (hr : r.result = 0) :
    pcloudCall env m ps ⟨some a, lt, some r :: ct, ws, rl⟩ =
      (.ok r, ⟨some a, lt, ct, ws, rl ++ [Req.storage m ps a]⟩) := by
  simp [pcloudCall, getAuthToken, pcloudLoop, hr]

/-- A `pcloudCall` whose first scripted response is a non-auth error
(result not 0, 1000 or 2000) surfaces it as an API error after exactly one
request. -/
theorem pcloudCall_err (env : Env) (m : String) (ps : SParams) (a : String)
    (r : CallResp) (lt : List (Option LoginResp)) (ct : List (Option CallResp))
    (ws : List (Option WsResp)) (rl : List Req)
    (h0 : r.result ≠ 0) (h1 : r.result ≠ 1000) (h2 : r.result ≠ 2000) :
    pcloudCall env m ps ⟨some a, lt, some r :: ct, ws, rl⟩ =
      (.error (.apiError r.result), ⟨some a, lt, ct, ws, rl ++ [Req.storage m ps a]⟩) := by
  simp [pcloudCall, getAuthToken, pcloudLoop, h0, h1, h2]

/-- Evaluation of shareFolder under a good `listfolder` answer (folder id 1) and a good
`sharefolder` answer: exactly the two requests, in order. -/
theorem shareFolder_good (env : Env) (path mail : String) (a : String)
    (lt : List (Option LoginResp)) (ct : List (Option CallResp))
    (ws : List (Option WsResp)) (rl : List Req) :
    shareFolder env path mail 7 ⟨some a, lt, some okListResp :: some okResp :: ct, ws, rl⟩ =
      (.ok okResp, ⟨some a, lt, ct, ws, rl ++
        [Req.storage "listfolder" { path := some path } a,
         Req.storage "sharefolder"
           { folderid := some 1, mail := some mail, permissions := some 7 } a]⟩) := by
  simp [shareFolder, pcloudCall, getAuthToken, pcloudLoop, okListResp, okResp, natTruthy]

/-- Evaluation of shareFolder when the `listfolder` lookup itself fails with a non-auth
error: one request, the error propagates out of `shareFolder`. -/
theorem shareFolder_bad (env : Env) (path mail : String) (a : String) (c : Nat)
    (lt : List (Option LoginResp)) (ct : List (Option CallResp))
    (ws : List (Option WsResp)) (rl : List Req)
    (h0 : c ≠ 0) (h1 : c ≠ 1000) (h2 : c ≠ 2000) :
    shareFolder env path mail 7 ⟨some a, lt, some { result := c } :: ct, ws, rl⟩ =
      (.error (.apiError c), ⟨some a, lt, ct, ws, rl ++
        [Req.storage "listfolder" { path := some path } a]⟩) := by
  simp [shareFolder, pcloudCall, getAuthToken, pcloudLoop, h0, h1, h2]

/-- The sharing loop splits over list concatenation. -/
theorem shareEmailsLoop_append (env : Env) (path : String) (xs ys : List String) :
    ∀ st, shareEmailsLoop env path (xs ++ ys) st =
      shareEmailsLoop env path ys (shareEmailsLoop env path xs st).2 := by
  induction xs with
  | nil => intro st; rfl
  | cons x xs ih => intro st; simp [shareEmailsLoop, ih]

/-- The sharing loop never raises: its result component is always success,
whatever the recipients and scripted responses. -/
theorem shareEmailsLoop_never_fails (env : Env) (path : String) :
    ∀ (emails : List String) (st : St),
      (shareEmailsLoop env path emails st).1 = .ok () := by
  intro emails
  induction emails with
  | nil => intro st; rfl
  | cons e es ih => intro st; simp [shareEmailsLoop, ih]

/-- The sharing loop under an all-good trace: success, consuming exactly its
trace and logging per recipient a `listfolder` then a `sharefolder`. -/
theorem shareEmailsLoop_good (env : Env) (path a : String) :
    ∀ (emails : List String) (lt : List (Option LoginResp))
      (ct : List (Option CallResp)) (ws : List (Option WsResp)) (rl : List Req),
      shareEmailsLoop env path emails ⟨some a, lt, goodShareTrace emails ++ ct, ws, rl⟩ =
        (.ok (), ⟨some a, lt, ct, ws, rl ++ shareReqs path a emails⟩) := by
  intro emails
  induction emails with
  | nil => intro lt ct ws rl; simp [shareEmailsLoop, goodShareTrace, shareReqs]
  | cons e es ih =>
      intro lt ct ws rl
      have h1 : goodShareTrace (e :: es) ++ ct
          = some okListResp :: some okResp :: (goodShareTrace es ++ ct) := by
        simp [goodShareTrace]
      simp only [shareEmailsLoop]
      rw [h1, shareFolder_good, ih]
      simp [shareReqs, List.flatMap_cons, List.append_assoc]

/-- The observer createfolderPaths distributes over log concatenation. -/
theorem createfolderPaths_append (l1 l2 : List Req) :
    createfolderPaths (l1 ++ l2) = createfolderPaths l1 ++ createfolderPaths l2 := by
  simp [createfolderPaths]

/-- The observer sharefolderMails distributes over log concatenation. -/
theorem sharefolderMails_append (l1 l2 : List Req) :
    sharefolderMails (l1 ++ l2) = sharefolderMails l1 ++ sharefolderMails l2 := by
  simp [sharefolderMails]

/-- The folder-creation requests for a name and date expose exactly the five
paths. -/
theorem createfolderPaths_createReqs (n d a : String) :
    createfolderPaths (createReqs n d a) = folderPathsOf n d := by
  simp [createfolderPaths, createReqs, folderPathsOf]

/-- Sharing requests contain no folder creation. -/
theorem createfolderPaths_shareReqs (p a : String) (es : List String) :
    createfolderPaths (shareReqs p a es) = [] := by
  induction es with
  | nil => rfl
  | cons e es ih => simp [shareReqs, List.flatMap_cons, createfolderPaths_append] at ih ⊢
                    simpa [createfolderPaths] using ih

/-- The `sharefolder` mails of a successful sharing pass are exactly the
recipients, in order. -/
theorem sharefolderMails_shareReqs (p a : String) (es : List String) :
    sharefolderMails (shareReqs p a es) = es := by
  induction es with
  | nil => rfl
  | cons e es ih => simp [shareReqs, List.flatMap_cons, sharefolderMails_append] at ih ⊢
                    simpa [sharefolderMails] using ih

/-- Folder-creation requests contain no `sharefolder`. -/
theorem sharefolderMails_createReqs (n d a : String) :
    sharefolderMails (createReqs n d a) = [] := by
  simp [sharefolderMails, createReqs, folderPathsOf]

/-- One `listfolder` per recipient in a successful sharing pass. -/
theorem listfolderCount_shareReqs (p a : String) (es : List String) :
    listfolderCount (shareReqs p a es) = es.length := by
  induction es with
  | nil => rfl
  | cons e es ih =>
      simp [shareReqs, List.flatMap_cons, listfolderCount, List.filterMap_append] at ih ⊢
      omega

/-- Evaluation of createProjectFolders under an all-good trace: the five folder
creations in dependency order, then the sharing pass, with the path record
returned. -/
theorem createProjectFolders_good (env : Env) (name : String)
    (emails : List String) (a : String) (lt : List (Option LoginResp))
    (ct : List (Option CallResp)) (ws : List (Option WsResp)) (rl : List Req) :
    createProjectFolders env name emails
        ⟨some a, lt, List.replicate 5 (some okResp) ++ goodShareTrace emails ++ ct, ws, rl⟩ =
      (.ok ("/WorksectionProjects", "/WorksectionProjects" ++ "/" ++ name,
            "/WorksectionProjects" ++ "/" ++ name ++ "/Preview",
            "/WorksectionProjects" ++ "/" ++ name ++ "/Preview" ++ "/" ++ env.today,
            "/WorksectionProjects" ++ "/" ++ name ++ "/Final_render"),
       ⟨some a, lt, ct, ws, rl ++ createReqs name env.today a ++
          shareReqs ("/WorksectionProjects" ++ "/" ++ name) a emails⟩) := by
  have h5 : List.replicate 5 (some okResp) ++ goodShareTrace emails ++ ct
      = some okResp :: some okResp :: some okResp :: some okResp :: some okResp ::
        (goodShareTrace emails ++ ct) := by
    simp [List.replicate]
  have hok : okResp.result = 0 := rfl
  simp only [createProjectFolders, h5, ensureFolder]
  rw [pcloudCall_ok env _ _ _ _ _ _ _ _ hok]
  simp only []
  rw [pcloudCall_ok env _ _ _ _ _ _ _ _ hok]
  simp only []
  rw [pcloudCall_ok env _ _ _ _ _ _ _ _ hok]
  simp only []
  rw [pcloudCall_ok env _ _ _ _ _ _ _ _ hok]
  simp only []
  rw [pcloudCall_ok env _ _ _ _ _ _ _ _ hok]
  simp only []
  rw [shareEmailsLoop_good]
  simp [createReqs, folderPathsOf, List.append_assoc]

/-! ### Claim theorems -/

/-- C2 counterexample: for project "Alpha" (date 2025-06-01) with an
all-success trace, `createProjectFolders` issues `createfolderifnotexists`
for FIVE paths — the claimed four-path sequence (root, project, dated
preview, final render) is not what is issued: the `Preview` base folder is
also created, between the project folder and the dated preview folder. -/
theorem c2_counterexample :
    createfolderPaths (createProjectFolders
        { staticAuth := some "tok", today := "2025-06-01" } "Alpha" []
        { cachedAuth := some "tok",
          callTrace := List.replicate 5 (some okResp) }).2.reqLog =
      ["/WorksectionProjects", "/WorksectionProjects/Alpha",
       "/WorksectionProjects/Alpha/Preview",
       "/WorksectionProjects/Alpha/Preview/2025-06-01",
       "/WorksectionProjects/Alpha/Final_render"] ∧
    createfolderPaths (createProjectFolders
        { staticAuth := some "tok", today := "2025-06-01" } "Alpha" []
        { cachedAuth := some "tok",
          callTrace := List.replicate 5 (some okResp) }).2.reqLog ≠
      ["/WorksectionProjects", "/WorksectionProjects/Alpha",
       "/WorksectionProjects/Alpha/Preview/2025-06-01",
       "/WorksectionProjects/Alpha/Final_render"] := by
  have h := createProjectFolders_good
    { staticAuth := some "tok", today := "2025-06-01" } "Alpha" [] "tok" [] [] [] []
  simp only [goodShareTrace, List.flatMap_nil, List.append_nil] at h
  simp only [h]
  decide

/-- C2 (amended): for every project name, `createProjectFolders` issues
`createfolderifnotexists` for exactly five paths — root, project, preview
base, dated preview, final render — in that fixed order. -/
theorem c2_five_folder_creations (env : Env) (name a : String)
    (emails : List String) (lt : List (Option LoginResp))
    (ct : List (Option CallResp)) (ws : List (Option WsResp)) :
    createfolderPaths (createProjectFolders env name emails
        ⟨some a, lt, List.replicate 5 (some okResp) ++ goodShareTrace emails ++ ct,
         ws, []⟩).2.reqLog =
      ["/WorksectionProjects",
       "/WorksectionProjects" ++ "/" ++ name,
       "/WorksectionProjects" ++ "/" ++ name ++ "/Preview",
       "/WorksectionProjects" ++ "/" ++ name ++ "/Preview" ++ "/" ++ env.today,
       "/WorksectionProjects" ++ "/" ++ name ++ "/Final_render"] := by
  rw [createProjectFolders_good]
  simp only [createfolderPaths_append, createfolderPaths_createReqs,
    createfolderPaths_shareReqs, folderPathsOf]
  simp [createfolderPaths]

/-- C4: if call number k+1 of the `createfolderifnotexists` sequence
call fails with a non-auth error code, the error propagates out of
`createProjectFolders` and only the first `k+1` paths were ever requested:
the remaining paths are not attempted and the scripted responses beyond the
failing one stay unconsumed. -/
theorem c4_abort_on_first_failure (env : Env) (name a : String)
    (emails : List String) (c : Nat) (k : Fin 5)
    (lt : List (Option LoginResp)) (ct : List (Option CallResp))
    (ws : List (Option WsResp))
    (h0 : c ≠ 0) (h1 : c ≠ 1000) (h2 : c ≠ 2000) :
    createProjectFolders env name emails
        ⟨some a, lt, List.replicate k.1 (some okResp) ++ some { result := c } :: ct,
         ws, []⟩ =
      (.error (.apiError c),
       ⟨some a, lt, ct, ws,
        ((folderPathsOf name env.today).take (k.1 + 1)).map fun p =>
          Req.storage "createfolderifnotexists" { path := some p } a⟩) := by
  fin_cases k <;>
    simp [createProjectFolders, ensureFolder, pcloudCall_ok, pcloudCall_err,
      h0, h1, h2, okResp, folderPathsOf, List.replicate]

/-- C4 witness: failure at the third path (the preview base folder) with
code 2008 aborts with an API error after exactly three creation requests. -/
theorem c4_abort_witness :
    createProjectFolders { today := "2025-06-01" } "Alpha" []
        ⟨some "tok", [], List.replicate 2 (some okResp) ++ some { result := 2008 } :: [],
         [], []⟩ =
      (.error (.apiError 2008),
       ⟨some "tok", [], [], [],
        ((folderPathsOf "Alpha" "2025-06-01").take 3).map fun p =>
          Req.storage "createfolderifnotexists" { path := some p } "tok"⟩) :=
  c4_abort_on_first_failure { today := "2025-06-01" } "Alpha" "tok" [] 2008 2 [] [] []
    (by decide) (by decide) (by decide)

/-- C5: any event whose (truthy-normalized) action is not "post" or whose
object type is not "project" makes `handleWebhookEvent` return immediately
with the state untouched: no tracker request, no folder creation, no
sharing, no scripted response consumed. -/
theorem c5_non_project_event_noop (env : Env) (event : Event) (st : St)
    (h : ¬(jsOr event.action = some "post" ∧
           jsOr (event.object.bind fun o => o.type) = some "project")) :
    handleWebhookEvent env event st = (.ok (), st) := by
  simp only [handleWebhookEvent]
  rw [if_neg h]

/-- C5 witness: the scenario event of the spec (an update action on a task
object with id 7) is a no-op with zero requests. -/
theorem c5_non_project_event_noop_witness :
    handleWebhookEvent {}
        { action := some "update", object := some { type := some "task", id := 7 } }
        {} = (.ok (), {}) :=
  c5_non_project_event_noop {} _ {} (by decide)

/-- C6: the hashed query builder is deterministic (the hash depends only on
the serialized query string and the secret), the hash is the hex MD5 of the
order-sensitive query string concatenated with the secret and is appended
as a `hash` parameter after hashing (it is not part of the hashed string),
and reordering the parameter mapping of the tracker query changes the hash. -/
theorem c6_hashed_query_builder :
    (∀ p q k, toQueryString p = toQueryString q →
        (buildHashedQuery p k).2 = (buildHashedQuery q k).2) ∧
    (∀ p k, buildHashedQuery p k =
        (p ++ [("hash", md5Hex (toQueryString p ++ k))],
         md5Hex (toQueryString p ++ k))) ∧
    (buildHashedQuery [("action", "get_project"), ("id_project", "42"),
        ("extra", "users")] "secret").2 ≠
      (buildHashedQuery [("id_project", "42"), ("action", "get_project"),
        ("extra", "users")] "secret").2 ∧
    (buildHashedQuery [("action", "get_project"), ("id_project", "42"),
        ("extra", "users")] "secret").2 ≠
      (buildHashedQuery [("action", "get_project"), ("extra", "users"),
        ("id_project", "42")] "secret").2 := by
  refine ⟨fun p q k h => by simp [buildHashedQuery, h], fun p k => rfl,
    by decide, by decide⟩

/-- C6 witness: the determinism component applied at a concrete mapping. -/
theorem c6_hashed_query_builder_witness :
    (buildHashedQuery [("action", "get_project")] "secret").2 =
      (buildHashedQuery [("action", "get_project")] "secret").2 :=
  c6_hashed_query_builder.1 _ _ "secret" rfl

/-- C8: for an email to be granted access, `shareFolder` first issues
`listfolder` on the project path, reads the folder identifier out of the
returned metadata, and then issues `sharefolder` with that identifier, the
email, and the permission bitmask — exactly these two requests, in that
order. -/
theorem c8_share_via_folderid (env : Env) (path mail : String)
    (permissions : Nat) (a : String) (fid : Nat) (sfr : CallResp)
    (lt : List (Option LoginResp)) (ct : List (Option CallResp))
    (ws : List (Option WsResp)) (rl : List Req)
    (hfid : fid ≠ 0) (hs : sfr.result = 0) :
    shareFolder env path mail permissions
        ⟨some a, lt,
         some { result := 0, metadata := some { folderid := some fid } } ::
           some sfr :: ct, ws, rl⟩ =
      (.ok sfr,
       ⟨some a, lt, ct, ws, rl ++
         [Req.storage "listfolder" { path := some path } a,
          Req.storage "sharefolder"
            { folderid := some fid, mail := some mail,
              permissions := some permissions } a]⟩) := by
  simp [shareFolder, pcloudCall, getAuthToken, pcloudLoop, natTruthy, hfid, hs]

/-- C8 witness: sharing `/WorksectionProjects/P` with `a@x` resolves folder
id 99 via `listfolder` and then calls `sharefolder` with it. -/
theorem c8_share_via_folderid_witness :
    shareFolder {} "/WorksectionProjects/P" "a@x" 7
        ⟨some "tok", [],
         [some { result := 0, metadata := some { folderid := some 99 } }, some okResp],
         [], []⟩ =
      (.ok okResp,
       ⟨some "tok", [], [], [],
        [Req.storage "listfolder" { path := some "/WorksectionProjects/P" } "tok",
         Req.storage "sharefolder"
           { folderid := some 99, mail := some "a@x", permissions := some 7 } "tok"]⟩) :=
  c8_share_via_folderid {} _ _ 7 "tok" 99 okResp [] [] [] [] (by decide) rfl

/-- C3: the sharing loop is a best-effort fan-out — (1) whatever the
recipients and the scripted responses, it never raises; (2) when recipient
`bademail` in the middle of the list fails (here: its `listfolder` lookup
answers a non-auth error), the loop still performs all attempts: every
recipient gets a `listfolder` attempt (N in total), the failing error is
swallowed, and all other recipients still get their `sharefolder`
call, in order. -/
theorem c3_share_fanout :
    (∀ (env : Env) (path : String) (emails : List String) (st : St),
        (shareEmailsLoop env path emails st).1 = .ok ()) ∧
    (∀ (env : Env) (path a : String) (pre post : List String) (bademail : String)
        (lt : List (Option LoginResp)) (ct : List (Option CallResp))
        (ws : List (Option WsResp)),
        shareEmailsLoop env path (pre ++ bademail :: post)
            ⟨some a, lt,
             goodShareTrace pre ++ some { result := 2055 } ::
               (goodShareTrace post ++ ct), ws, []⟩ =
          (.ok (),
           ⟨some a, lt, ct, ws,
            shareReqs path a pre ++
              [Req.storage "listfolder" { path := some path } a] ++
                shareReqs path a post⟩) ∧
        sharefolderMails
            (shareReqs path a pre ++
              [Req.storage "listfolder" { path := some path } a] ++
                shareReqs path a post) = pre ++ post ∧
        listfolderCount
            (shareReqs path a pre ++
              [Req.storage "listfolder" { path := some path } a] ++
                shareReqs path a post) = pre.length + 1 + post.length) := by
  refine ⟨shareEmailsLoop_never_fails, ?_⟩
  intro env path a pre post bademail lt ct ws
  refine ⟨?_, ?_, ?_⟩
  · rw [shareEmailsLoop_append, shareEmailsLoop_good]
    simp only [shareEmailsLoop]
    rw [shareFolder_bad env path bademail a 2055 lt (goodShareTrace post ++ ct) ws
      ([] ++ shareReqs path a pre) (by decide) (by decide) (by decide)]
    rw [shareEmailsLoop_good]
    simp [List.append_assoc]
  · simp only [sharefolderMails_append, sharefolderMails_shareReqs]
    simp [sharefolderMails]
  · simp only [listfolderCount, List.filterMap_append]
    have h1 := listfolderCount_shareReqs path a pre
    have h2 := listfolderCount_shareReqs path a post
    simp only [listfolderCount] at h1 h2
    simp [h1, h2]
    omega

/-- C1: when the first scripted response to a `pcloudCall` is result code
1000 or 2000, the call invalidates the cached token, performs a fresh login
(here: the credential configuration, so a `userinfo` login request is
issued and the fresh token is cached), and retries the identical method and
parameters exactly once with the fresh token.  Whatever the second response
is, no third request is issued and no further response is consumed: a
success returns it, and any non-zero code — in particular a second 1000 or
2000 — is surfaced as the API error carrying that code, which for 1000/2000
is the AuthError class of the spec. -/
theorem c1_auth_retry_once (env : Env) (method : String) (ps : SParams)
    (a u pw b : String) (r1 r2 : CallResp)
    (lt : List (Option LoginResp)) (ct : List (Option CallResp))
    (ws : List (Option WsResp))
    (hsa : env.staticAuth = none) (hu : env.username = some u)
    (hpw : env.password = some pw) (hb : b ≠ "")
    (hr1 : r1.result = 1000 ∨ r1.result = 2000) :
    pcloudCall env method ps
        ⟨some a, some { result := 0, auth := some b } :: lt,
         some r1 :: some r2 :: ct, ws, []⟩ =
      ((if r2.result = 0 then .ok r2 else .error (.apiError r2.result)),
       ⟨some b, lt, ct, ws,
        [Req.storage method ps a, Req.login u pw, Req.storage method ps b]⟩) ∧
    ((r2.result = 1000 ∨ r2.result = 2000) →
      (Err.apiError r2.result).isAuthError = true) := by
  constructor
  · rcases hr1 with h | h <;> by_cases h2 : r2.result = 0 <;>
      simp [pcloudCall, getAuthToken, pcloudLoop, loginAndGetAuth,
        hsa, hu, hpw, hb, h, h2, strTruthy]
  · rintro (h | h) <;> simp [Err.isAuthError, h]

/-- C1 witness: a stale cached token, responses 1000 then 2000 — one
re-login, one retry with the fresh token, then the auth error surfaces with
the third scripted response left unconsumed. -/
theorem c1_auth_retry_once_witness :
    pcloudCall { username := some "u", password := some "p" } "listfolder"
        { path := some "/p" }
        ⟨some "stale", [some { result := 0, auth := some "fresh" }],
         [some { result := 1000 }, some { result := 2000 }], [], []⟩ =
      (.error (.apiError 2000),
       ⟨some "fresh", [], [], [],
        [Req.storage "listfolder" { path := some "/p" } "stale",
         Req.login "u" "p",
         Req.storage "listfolder" { path := some "/p" } "fresh"]⟩) ∧
    (Err.apiError 2000).isAuthError = true := by
  have h := c1_auth_retry_once { username := some "u", password := some "p" }
    "listfolder" { path := some "/p" } "stale" "u" "p" "fresh"
    { result := 1000 } { result := 2000 } [] [] [] rfl rfl rfl
    (by decide) (Or.inl rfl)
  exact ⟨by simpa using h.1, h.2 (Or.inr rfl)⟩

/-- C10: with a static token configured, `loginAndGetAuth` returns that
static token whatever the cached-token state is; consequently, after an
auth-failure response clears the cache, the retried call is issued with the
exact same static token as the failed call (two storage requests, both with
token `t`, and no login request). -/
theorem c10_static_token (env : Env) (t : String)
    (hsa : env.staticAuth = some t) :
    (∀ st : St, loginAndGetAuth env st = (.ok t, st)) ∧
    (∀ (method : String) (ps : SParams) (r1 r2 : CallResp)
        (lt : List (Option LoginResp)) (ct : List (Option CallResp))
        (ws : List (Option WsResp)),
        (r1.result = 1000 ∨ r1.result = 2000) →
        pcloudCall env method ps ⟨some t, lt, some r1 :: some r2 :: ct, ws, []⟩ =
          ((if r2.result = 0 then .ok r2 else .error (.apiError r2.result)),
           ⟨none, lt, ct, ws,
            [Req.storage method ps t, Req.storage method ps t]⟩)) := by
  constructor
  · intro st; simp [loginAndGetAuth, hsa]
  · intro method ps r1 r2 lt ct ws hr1
    rcases hr1 with h | h <;> by_cases h2 : r2.result = 0 <;>
      simp [pcloudCall, getAuthToken, pcloudLoop, loginAndGetAuth, hsa, h, h2]

/-- C10 witness: static token "tok", response 1000 then success — both
requests carry "tok" and no login request is issued. -/
theorem c10_static_token_witness :
    loginAndGetAuth { staticAuth := some "tok" } { cachedAuth := none } =
      (.ok "tok", { cachedAuth := none }) ∧
    pcloudCall { staticAuth := some "tok" } "listfolder" { path := some "/p" }
        ⟨some "tok", [], [some { result := 1000 }, some { result := 0 }], [], []⟩ =
      (.ok { result := 0 },
       ⟨none, [], [], [],
        [Req.storage "listfolder" { path := some "/p" } "tok",
         Req.storage "listfolder" { path := some "/p" } "tok"]⟩) := by
  have h := c10_static_token { staticAuth := some "tok" } "tok" rfl
  exact ⟨h.1 _, by simpa using (h.2 "listfolder" { path := some "/p" }
    { result := 1000 } { result := 0 } [] [] [] (Or.inl rfl))⟩

/-- C7: (1) for a project-creation event, when the status field of the
tracker envelope is not "ok", the handler fails with the remote error after
issuing only the tracker request — no folder-creation and no sharing call
is issued and no storage response is consumed; (2) `fetchWorksectionProject`
fails with the configuration error, without issuing any request, when the
base URL or the admin token is unset/falsy. -/
theorem c7_remote_and_config_errors :
    (∀ (env : Env) (event : Event) (obj : EventObject) (st : St)
        (resp : WsResp) (wsrest : List (Option WsResp)),
        jsOr event.action = some "post" →
        jsOr (event.object.bind fun o => o.type) = some "project" →
        event.object = some obj →
        strTruthy env.wsBaseUrl = true →
        strTruthy env.wsToken = true →
        st.wsTrace = some resp :: wsrest →
        resp.status ≠ "ok" →
        handleWebhookEvent env event st =
          (.error .remoteError,
           { st with
              wsTrace := wsrest,
              reqLog := st.reqLog ++ [Req.tracker (buildHashedQuery
                [("action", "get_project"), ("id_project", toString obj.id),
                 ("extra", "users")] (env.wsToken.getD "")).1] })) ∧
    (∀ (env : Env) (projectId : Nat) (st : St),
        (strTruthy env.wsBaseUrl = false ∨ strTruthy env.wsToken = false) →
        fetchWorksectionProject env projectId st = (.error .configError, st)) := by
  constructor
  · intro env event obj st resp wsrest haction htype hobj hbase htok hws hstatus
    have htype' : jsOr obj.type = some "project" := by
      rw [hobj] at htype; simpa using htype
    simp [handleWebhookEvent, fetchWorksectionProject, haction, htype, htype',
      hobj, hbase, htok, hws, hstatus]
  · intro env projectId st h
    rcases h with h | h <;> simp [fetchWorksectionProject, h]

/-- C7 witness: a concrete project-creation event against a tracker that
answers `status:"error"` fails with the remote error, leaving the storage
trace untouched; a missing base URL fails with the configuration error. -/
theorem c7_remote_and_config_errors_witness :
    handleWebhookEvent { wsBaseUrl := some "https://x", wsToken := some "secret" }
        { action := some "post", object := some { type := some "project", id := 42 } }
        { wsTrace := [some { status := "error" }],
          callTrace := [some okResp] } =
      (.error .remoteError,
       { callTrace := [some okResp],
         reqLog := [Req.tracker (buildHashedQuery
           [("action", "get_project"), ("id_project", toString 42),
            ("extra", "users")] "secret").1] }) ∧
    fetchWorksectionProject {} 7 {} = (.error .configError, {}) := by
  have h := c7_remote_and_config_errors
  exact ⟨h.1 { wsBaseUrl := some "https://x", wsToken := some "secret" } _
      { type := some "project", id := 42 } _ { status := "error" } []
      rfl rfl rfl rfl rfl rfl (by decide),
    h.2 {} 7 {} (Or.inl rfl)⟩

/-- Evaluation of fetchWorksectionProject under a configured environment and an "ok"
envelope: one tracker request with the hash-signed parameters, envelope
returned. -/
theorem fetchWorksectionProject_ok (env : Env) (pid : Nat) (resp : WsResp)
    (ca : Option String) (lt : List (Option LoginResp))
    (ct : List (Option CallResp)) (wsrest : List (Option WsResp)) (rl : List Req)
    (hbase : strTruthy env.wsBaseUrl = true) (htok : strTruthy env.wsToken = true)
    (hst : resp.status = "ok") :
    fetchWorksectionProject env pid ⟨ca, lt, ct, some resp :: wsrest, rl⟩ =
      (.ok resp,
       ⟨ca, lt, ct, wsrest, rl ++ [Req.tracker (buildHashedQuery
          [("action", "get_project"), ("id_project", toString pid),
           ("extra", "users")] (env.wsToken.getD "")).1]⟩) := by
  simp [fetchWorksectionProject, hbase, htok, hst]

/-- Evaluation of handleWebhookEvent on a qualifying project-creation event, a
successful tracker answer carrying `d`, and an all-good storage trace for
the name and emails the handler extracts from `d`: the tracker request,
then the five folder creations for the extracted name, then the sharing
pass for the extracted emails. -/
theorem handleWebhookEvent_good (env : Env) (event : Event) (obj : EventObject)
    (d : WsData) (a name : String) (emails : List String)
    (lt : List (Option LoginResp)) (ct : List (Option CallResp))
    (wsrest : List (Option WsResp))
    (haction : jsOr event.action = some "post")
    (htype : jsOr (event.object.bind fun o => o.type) = some "project")
    (hobj : event.object = some obj)
    (hbase : strTruthy env.wsBaseUrl = true)
    (htok : strTruthy env.wsToken = true)
    (hname : name = (match jsOr d.name with
      | some n => n
      | none => match jsOr (event.new.bind fun x => x.title) with
        | some t => t
        | none => "project_" ++ toString obj.id))
    (hemails : emails = ((d.users.getD []).map fun u => u.email).filterMap jsOr) :
    handleWebhookEvent env event
        ⟨some a, lt,
         List.replicate 5 (some okResp) ++ goodShareTrace emails ++ ct,
         some { status := "ok", data := some d } :: wsrest, []⟩ =
      (.ok (),
       ⟨some a, lt, ct, wsrest,
        Req.tracker (buildHashedQuery
            [("action", "get_project"), ("id_project", toString obj.id),
             ("extra", "users")] (env.wsToken.getD "")).1 ::
          (createReqs name env.today a ++
            shareReqs ("/WorksectionProjects" ++ "/" ++ name) a emails)⟩) := by
  subst hname
  subst hemails
  have htype' : jsOr obj.type = some "project" := by
    rw [hobj] at htype; simpa using htype
  simp only [handleWebhookEvent, hobj, Option.some_bind, haction, htype']
  rw [if_pos ⟨trivial, trivial⟩]
  rw [fetchWorksectionProject_ok env obj.id _ _ _ _ _ _ hbase htok rfl]
  simp only [List.nil_append, Option.getD_some]
  rw [createProjectFolders_good]
  rfl

/-- C9: on a successful tracker response the handler derives the folder
layout from the extracted project name — the fetched `data.name` when
truthy, else the webhook-supplied title, else `project_<id>` — and shares
with exactly the truthy emails of the `users` array: the five
`createfolderifnotexists` paths are those of the extracted name, and the
`sharefolder` requests carry exactly the filtered emails, in order. -/
theorem c9_name_and_email_extraction (env : Env) (event : Event)
    (obj : EventObject) (d : WsData) (a name : String) (emails : List String)
    (lt : List (Option LoginResp)) (ct : List (Option CallResp))
    (wsrest : List (Option WsResp))
    (haction : jsOr event.action = some "post")
    (htype : jsOr (event.object.bind fun o => o.type) = some "project")
    (hobj : event.object = some obj)
    (hbase : strTruthy env.wsBaseUrl = true)
    (htok : strTruthy env.wsToken = true)
    (hname : name = (match jsOr d.name with
      | some n => n
      | none => match jsOr (event.new.bind fun x => x.title) with
        | some t => t
        | none => "project_" ++ toString obj.id))
    (hemails : emails = ((d.users.getD []).map fun u => u.email).filterMap jsOr) :
    ∃ st' : St,
      handleWebhookEvent env event
          ⟨some a, lt,
           List.replicate 5 (some okResp) ++ goodShareTrace emails ++ ct,
           some { status := "ok", data := some d } :: wsrest, []⟩ = (.ok (), st') ∧
      createfolderPaths st'.reqLog = folderPathsOf name env.today ∧
      sharefolderMails st'.reqLog = emails ∧
      (∀ n, jsOr d.name = some n → name = n) ∧
      (jsOr d.name = none →
        ∀ t, jsOr (event.new.bind fun x => x.title) = some t → name = t) ∧
      (jsOr d.name = none → jsOr (event.new.bind fun x => x.title) = none →
        name = "project_" ++ toString obj.id) := by
  refine ⟨_, handleWebhookEvent_good env event obj d a name emails lt ct wsrest
    haction htype hobj hbase htok hname hemails, ?_, ?_, ?_, ?_, ?_⟩
  · rw [← List.singleton_append, createfolderPaths_append, createfolderPaths_append,
      createfolderPaths_createReqs, createfolderPaths_shareReqs]
    simp [createfolderPaths]
  · rw [← List.singleton_append, sharefolderMails_append, sharefolderMails_append,
      sharefolderMails_createReqs, sharefolderMails_shareReqs]
    simp [sharefolderMails]
  · intro n h; simp [hname, h]
  · intro h t ht; simp [hname, h, ht]
  · intro h ht; simp [hname, h, ht]

/-- C9 witness: the scenario of the spec: name "Alpha" fetched, two users of
which only one has a non-empty email. -/
theorem c9_name_and_email_extraction_witness :
    ∃ st' : St,
      handleWebhookEvent
          { wsBaseUrl := some "https://x", wsToken := some "secret",
            today := "2025-06-01" }
          { action := some "post",
            object := some { type := some "project", id := 42 },
            new := some { title := some "T" } }
          ⟨some "tok", [],
           List.replicate 5 (some okResp) ++ goodShareTrace ["a@x.com"] ++ [],
           some { status := "ok",
                  data := some { name := some "Alpha",
                                 users := some [{ email := some "a@x.com" },
                                                { email := some "" }] } } :: [],
           []⟩ = (.ok (), st') ∧
      createfolderPaths st'.reqLog = folderPathsOf "Alpha" "2025-06-01" ∧
      sharefolderMails st'.reqLog = ["a@x.com"] ∧
      (∀ n, jsOr (some "Alpha") = some n → "Alpha" = n) ∧
      (jsOr (some "Alpha") = none →
        ∀ t, jsOr ((some (EventNew.mk (some "T"))).bind fun x => x.title) = some t →
          "Alpha" = t) ∧
      (jsOr (some "Alpha") = none →
        jsOr ((some (EventNew.mk (some "T"))).bind fun x => x.title) = none →
          "Alpha" = "project_" ++ toString 42) :=
  c9_name_and_email_extraction
    { wsBaseUrl := some "https://x", wsToken := some "secret", today := "2025-06-01" }
    { action := some "post", object := some { type := some "project", id := 42 },
      new := some { title := some "T" } }
    { type := some "project", id := 42 }
    { name := some "Alpha",
      users := some [{ email := some "a@x.com" }, { email := some "" }] }
    "tok" "Alpha" ["a@x.com"] [] [] []
    (by decide) (by decide) rfl (by decide) (by decide) (by decide) (by decide)
